import Mathlib

/-!
Shallow embedding of `src/flight/PiOS/Common/pios_mpu6500.c` (Tau Labs
MPU6500 gyro/accel driver).  The serial-bus transport, delay, watchdog and
queue services are external collaborators; they are modelled by an oracle
(`Spi`) giving the result of every bus primitive call, indexed by how many
calls of that primitive have happened so far, together with an explicit
driver state (`St`) that records the device instance, the bytes last
successfully written to each hardware register, the per-primitive call
counters, the two bounded output queues and the trace of bus events.
-/

/-- Modelled from the spec: register map of the MPU60x0 family.  The header
`pios_mpu60x0.h` that defines these addresses is not under `src/`; the values
are the hardware register addresses named in the spec's register-map section. -/
def PIOS_MPU60X0_SMPLRT_DIV_REG : ℕ := 0x19

/-- Modelled from the spec: low-pass-filter config register address
(header `pios_mpu60x0.h` not under `src/`). -/
def PIOS_MPU60X0_DLPF_CFG_REG : ℕ := 0x1a

/-- Modelled from the spec: gyro-config register address
(header `pios_mpu60x0.h` not under `src/`). -/
def PIOS_MPU60X0_GYRO_CFG_REG : ℕ := 0x1b

/-- Modelled from the spec: accel-config register address
(header `pios_mpu60x0.h` not under `src/`). -/
def PIOS_MPU60X0_ACCEL_CFG_REG : ℕ := 0x1c

/-- Modelled from the spec: interrupt-config register address
(header `pios_mpu60x0.h` not under `src/`). -/
def PIOS_MPU60X0_INT_CFG_REG : ℕ := 0x37

/-- Modelled from the spec: interrupt-enable register address
(header `pios_mpu60x0.h` not under `src/`). -/
def PIOS_MPU60X0_INT_EN_REG : ℕ := 0x38

/-- Modelled from the spec: first register of the burst read (accel X high)
(header `pios_mpu60x0.h` not under `src/`). -/
def PIOS_MPU60X0_ACCEL_X_OUT_MSB : ℕ := 0x3b

/-- Modelled from the spec: user-control register address
(header `pios_mpu60x0.h` not under `src/`). -/
def PIOS_MPU60X0_USER_CTRL_REG : ℕ := 0x6a

/-- Modelled from the spec: power-management register address
(header `pios_mpu60x0.h` not under `src/`). -/
def PIOS_MPU60X0_PWR_MGMT_REG : ℕ := 0x6b

/-- Modelled from the spec: identity (who-am-i) register address
(header `pios_mpu60x0.h` not under `src/`). -/
def PIOS_MPU60X0_WHOAMI : ℕ := 0x75

/-- Modelled from the spec: device-reset bit of the power-management register
(header `pios_mpu60x0.h` not under `src/`). -/
def PIOS_MPU60X0_PWRMGMT_IMU_RST : ℕ := 0x80

/-- Modelled from the spec: signal-path reset bit of the user-control register
(header `pios_mpu60x0.h` not under `src/`). -/
def PIOS_MPU60X0_USERCTL_GYRO_RST : ℕ := 0x01

/-- Modelled from the spec: gyro full-scale enum values 250/500/1000/2000 deg/s
(header `pios_mpu60x0.h` not under `src/`). -/
def PIOS_MPU60X0_SCALE_250_DEG : ℕ := 0x00

/-- Modelled from the spec: gyro full-scale 500 deg/s enum value. -/
def PIOS_MPU60X0_SCALE_500_DEG : ℕ := 0x08

/-- Modelled from the spec: gyro full-scale 1000 deg/s enum value. -/
def PIOS_MPU60X0_SCALE_1000_DEG : ℕ := 0x10

/-- Modelled from the spec: gyro full-scale 2000 deg/s enum value. -/
def PIOS_MPU60X0_SCALE_2000_DEG : ℕ := 0x18

/-- Modelled from the spec: accel full-scale enum values 2/4/8/16 g
(header `pios_mpu60x0.h` not under `src/`). -/
def PIOS_MPU60X0_ACCEL_2G : ℕ := 0x00

/-- Modelled from the spec: accel full-scale 4 g enum value. -/
def PIOS_MPU60X0_ACCEL_4G : ℕ := 0x08

/-- Modelled from the spec: accel full-scale 8 g enum value. -/
def PIOS_MPU60X0_ACCEL_8G : ℕ := 0x10

/-- Modelled from the spec: accel full-scale 16 g enum value. -/
def PIOS_MPU60X0_ACCEL_16G : ℕ := 0x18

/-- Modelled from the spec: low-pass-filter ladder; `0x00` is the widest
(256 Hz) option (header `pios_mpu60x0.h` not under `src/`). -/
def PIOS_MPU60X0_LOWPASS_256_HZ : ℕ := 0x00

/-- Modelled from the spec: 188 Hz low-pass-filter enum value. -/
def PIOS_MPU60X0_LOWPASS_188_HZ : ℕ := 0x01

/-- Modelled from the spec: 98 Hz low-pass-filter enum value. -/
def PIOS_MPU60X0_LOWPASS_98_HZ : ℕ := 0x02

/-- Modelled from the spec: local gravity constant from
`physical_constants.h`, which is not under `src/`. -/
def GRAVITY : ℚ := 9.805

/-- Source line 41: expected identity byte of the MPU6500. -/
def MPU6500_WHOAMI_ID : ℕ := 0x70

/-- Source line 46: magic validity tag of a live device instance. -/
def pios_mpu6500_dev_MAGIC : ℕ := 0x9da9bccc

/-- Source line 49: capacity of each output queue. -/
def PIOS_MPU6500_MAX_QUEUESIZE : ℕ := 2

/-- Modelled from the spec: the four mounting orientations of
`enum pios_mpu60x0_orientation` (header `pios_mpu60x0.h` not under `src/`). -/
inductive Mpu60x0Orient
  | top0deg
  | top90deg
  | top180deg
  | top270deg
deriving DecidableEq

/-- Board configuration record `struct pios_mpu60x0_cfg` (the fields the
driver reads; the EXTI wiring is an external collaborator). -/
structure Mpu60x0Cfg where
  Pwr_mgmt_clk : ℕ
  User_ctl : ℕ
  default_filter : ℕ
  default_samplerate : ℕ
  interrupt_cfg : ℕ
  interrupt_en : ℕ
  orient : Mpu60x0Orient
deriving DecidableEq

/-- Source lines 51-64: `struct mpu6500_dev` (with `PIOS_MPU6500_ACCEL`
enabled).  Queue handles are owned by the state; enum-typed fields carry the
enum's underlying integer value. -/
structure Mpu6500Dev where
  spi_id : ℕ
  slave_num : ℕ
  gyro_range : ℕ
  accel_range : ℕ
  cfg : Mpu60x0Cfg
  configured : Bool
  magic : ℕ
  filter : ℕ
deriving DecidableEq

/-- `struct pios_sensor_gyro_data`: three scaled axes plus temperature. -/
structure pios_sensor_gyro_data where
  x : ℚ
  y : ℚ
  z : ℚ
  temperature : ℚ
deriving DecidableEq

/-- `struct pios_sensor_accel_data`: three scaled axes plus temperature. -/
structure pios_sensor_accel_data where
  x : ℚ
  y : ℚ
  z : ℚ
  temperature : ℚ
deriving DecidableEq

/-- Bus-level events the driver can cause, recorded as a trace. -/
inductive BusEvent
  | claim
  | transferByte
  | transferBlock
  | release
deriving DecidableEq

/-- Oracle for the external SPI transport, delay and queue services: the
result of the k-th call of each primitive. -/
structure Spi where
  claimResults : ℕ → ℤ
  releaseResults : ℕ → ℤ
  byteResults : ℕ → ℕ
  blockResults : ℕ → ℤ
  blockData : ℕ → Fin 15 → ℕ
  queueWoken : ℕ → Bool
  busWoken : ℕ → Bool

/-- Driver-visible state: the device handle (`pios_mpu6500_dev`, `none` models
a NULL pointer), the byte last successfully written to each hardware register,
per-primitive call counters, the two bounded queues and the bus-event trace. -/
structure St where
  dev : Option Mpu6500Dev
  hwRegs : ℕ → ℕ
  nClaim : ℕ := 0
  nRelease : ℕ := 0
  nByte : ℕ := 0
  nBlock : ℕ := 0
  nQueue : ℕ := 0
  nBusWoken : ℕ := 0
  gyroQueue : List pios_sensor_gyro_data := []
  accelQueue : List pios_sensor_accel_data := []
  events : List BusEvent := []

/-- External primitive `PIOS_SPI_ClaimBus`. -/
def PIOS_SPI_ClaimBus (e : Spi) (s : St) : ℤ × St :=
  (e.claimResults s.nClaim,
    { s with nClaim := s.nClaim + 1, events := s.events ++ [BusEvent.claim] })

/-- External primitive `PIOS_SPI_ClaimBusISR`; additionally reports whether a
higher-priority task was woken. -/
def PIOS_SPI_ClaimBusISR (e : Spi) (woken : Bool) (s : St) : ℤ × Bool × St :=
  (e.claimResults s.nClaim, woken || e.busWoken s.nBusWoken,
    { s with nClaim := s.nClaim + 1, nBusWoken := s.nBusWoken + 1,
             events := s.events ++ [BusEvent.claim] })

/-- External primitive `PIOS_SPI_ReleaseBus`. -/
def PIOS_SPI_ReleaseBus (e : Spi) (s : St) : ℤ × St :=
  (e.releaseResults s.nRelease,
    { s with nRelease := s.nRelease + 1, events := s.events ++ [BusEvent.release] })

/-- External primitive `PIOS_SPI_ReleaseBusISR`. -/
def PIOS_SPI_ReleaseBusISR (e : Spi) (woken : Bool) (s : St) : ℤ × Bool × St :=
  (e.releaseResults s.nRelease, woken || e.busWoken s.nBusWoken,
    { s with nRelease := s.nRelease + 1, nBusWoken := s.nBusWoken + 1,
             events := s.events ++ [BusEvent.release] })

/-- External primitive `PIOS_SPI_TransferByte`: sends one byte, returns the
byte clocked back (truncated to 8 bits, as its `uint8` return type forces). -/
def PIOS_SPI_TransferByte (e : Spi) (_sendByte : ℕ) (s : St) : ℕ × St :=
  (e.byteResults s.nByte % 256,
    { s with nByte := s.nByte + 1, events := s.events ++ [BusEvent.transferByte] })

/-- External primitive `PIOS_SPI_TransferBlock` for the fixed 15-byte burst:
returns the status code and the received buffer. -/
def PIOS_SPI_TransferBlock (e : Spi) (s : St) : ℤ × (Fin 15 → ℕ) × St :=
  (e.blockResults s.nBlock, fun i => e.blockData s.nBlock i % 256,
    { s with nBlock := s.nBlock + 1, events := s.events ++ [BusEvent.transferBlock] })

/-- Source lines 118-130: `PIOS_MPU6500_Validate`. -/
def PIOS_MPU6500_Validate : Option Mpu6500Dev → ℤ
  | none => -1
  | some dev =>
    if dev.magic ≠ pios_mpu6500_dev_MAGIC then -2
    else if dev.spi_id = 0 then -3
    else 0

/-- Source lines 364-374: `PIOS_MPU6500_ClaimBus` (the `PIOS_SPI_RC_PinSet`
chip-select assertion touches no modelled state). -/
def PIOS_MPU6500_ClaimBus (e : Spi) (s : St) : ℤ × St :=
  if PIOS_MPU6500_Validate s.dev ≠ 0 then (-1, s)
  else
    let c := PIOS_SPI_ClaimBus e s
    if c.1 ≠ 0 then (-2, c.2)
    else (0, c.2)

/-- Source lines 381-391: `PIOS_MPU6500_ClaimBusISR`. -/
def PIOS_MPU6500_ClaimBusISR (e : Spi) (woken : Bool) (s : St) : ℤ × Bool × St :=
  if PIOS_MPU6500_Validate s.dev ≠ 0 then (-1, woken, s)
  else
    let c := PIOS_SPI_ClaimBusISR e woken s
    if c.1 ≠ 0 then (-2, c.2.1, c.2.2)
    else (0, c.2.1, c.2.2)

/-- Source lines 397-405: `PIOS_MPU6500_ReleaseBus`. -/
def PIOS_MPU6500_ReleaseBus (e : Spi) (s : St) : ℤ × St :=
  if PIOS_MPU6500_Validate s.dev ≠ 0 then (-1, s)
  else PIOS_SPI_ReleaseBus e s

/-- Source lines 412-420: `PIOS_MPU6500_ReleaseBusISR`. -/
def PIOS_MPU6500_ReleaseBusISR (e : Spi) (woken : Bool) (s : St) : ℤ × Bool × St :=
  if PIOS_MPU6500_Validate s.dev ≠ 0 then (-1, woken, s)
  else PIOS_SPI_ReleaseBusISR e woken s

/-- Source lines 427-439: `PIOS_MPU6500_GetReg`.  The echo of the address
byte is discarded, exactly as in the source; the second transferred byte is
returned as the register value. -/
def PIOS_MPU6500_GetReg (e : Spi) (reg : ℕ) (s : St) : ℤ × St :=
  let c := PIOS_MPU6500_ClaimBus e s
  if c.1 ≠ 0 then (-1, c.2)
  else
    let t1 := PIOS_SPI_TransferByte e (0x80 ||| reg) c.2
    let t2 := PIOS_SPI_TransferByte e 0 t1.2
    let rel := PIOS_MPU6500_ReleaseBus e t2.2
    ((t2.1 : ℤ), rel.2)

/-- Source lines 449-467: `PIOS_MPU6500_SetReg`.  A non-zero echo on either
transfer byte aborts with a distinct error; the hardware register is updated
only by a fully successful write transaction. -/
def PIOS_MPU6500_SetReg (e : Spi) (reg data : ℕ) (s : St) : ℤ × St :=
  let c := PIOS_MPU6500_ClaimBus e s
  if c.1 ≠ 0 then (-1, c.2)
  else
    let t1 := PIOS_SPI_TransferByte e (0x7f &&& reg) c.2
    if t1.1 ≠ 0 then
      let rel := PIOS_MPU6500_ReleaseBus e t1.2
      (-2, rel.2)
    else
      let t2 := PIOS_SPI_TransferByte e data t1.2
      if t2.1 ≠ 0 then
        let rel := PIOS_MPU6500_ReleaseBus e t2.2
        (-3, rel.2)
      else
        let s3 := { t2.2 with hwRegs := fun a => if a = reg then data % 256 else t2.2.hwRegs a }
        let rel := PIOS_MPU6500_ReleaseBus e s3
        (0, rel.2)

/-- Reads `pios_mpu6500_dev->filter`; in C this dereference of a NULL handle
would fault, so the `none` default is unreachable in any modelled run. -/
def devFilter (s : St) : ℕ :=
  match s.dev with
  | some d => d.filter
  | none => 0

/-- Reads `pios_mpu6500_dev->gyro_range` (NULL default unreachable as above). -/
def devGyroRange (s : St) : ℕ :=
  match s.dev with
  | some d => d.gyro_range
  | none => 0

/-- Reads `pios_mpu6500_dev->accel_range` (NULL default unreachable as above). -/
def devAccelRange (s : St) : ℕ :=
  match s.dev with
  | some d => d.accel_range
  | none => 0

/-- Reads `pios_mpu6500_dev->configured` (NULL default unreachable as above). -/
def devConfigured (s : St) : Bool :=
  match s.dev with
  | some d => d.configured
  | none => false

/-- Reads `pios_mpu6500_dev->cfg->orientation` (NULL default unreachable). -/
def devOrient (s : St) : Mpu60x0Orient :=
  match s.dev with
  | some d => d.cfg.orient
  | none => Mpu60x0Orient.top0deg

/-- Source lines 288-308: `PIOS_MPU6500_SetGyroRange`.  The write result is
ignored and the cached range is updated unconditionally; the
`PIOS_SENSORS_SetMaxGyro` registry call touches no modelled state. -/
def PIOS_MPU6500_SetGyroRange (e : Spi) (gyro_range : ℕ) (s : St) : St :=
  let w := PIOS_MPU6500_SetReg e PIOS_MPU60X0_GYRO_CFG_REG gyro_range s
  { w.2 with dev := w.2.dev.map (fun d => { d with gyro_range := gyro_range }) }

/-- Source lines 314-319: `PIOS_MPU6500_SetAccelRange`.  The write result is
ignored and the cached range is updated unconditionally. -/
def PIOS_MPU6500_SetAccelRange (e : Spi) (accel_range : ℕ) (s : St) : St :=
  let w := PIOS_MPU6500_SetReg e PIOS_MPU60X0_ACCEL_CFG_REG accel_range s
  { w.2 with dev := w.2.dev.map (fun d => { d with accel_range := accel_range }) }

/-- Source lines 353-358: `PIOS_MPU6500_SetLPF`.  The write result is ignored
and the cached filter is updated unconditionally. -/
def PIOS_MPU6500_SetLPF (e : Spi) (filter : ℕ) (s : St) : St :=
  let w := PIOS_MPU6500_SetReg e PIOS_MPU60X0_DLPF_CFG_REG filter s
  { w.2 with dev := w.2.dev.map (fun d => { d with filter := filter }) }

/-- Source lines 326-348, the divisor computation of
`PIOS_MPU6500_SetSampleRate`.  The C code computes
`(int32_t)(((float)filter_frequency / samplerate_hz) + 0.5f) - 1`; for every
`uint16` input the float computation equals exact round-half-up, because the
nearest odd multiple of `1/2` differs from `filter_frequency / samplerate_hz`
by a relative gap of at least `1/16001`, far above single-precision rounding
error, so it is embedded as the exact integer form
`(2 * filter_frequency + sr) / (2 * sr) - 1`. -/
def sampleRateDivisor (filter : ℕ) (samplerate_hz : ℕ) : ℕ :=
  let filter_frequency : ℕ := if filter ≠ PIOS_MPU60X0_LOWPASS_256_HZ then 1000 else 8000
  let sr : ℕ := if filter_frequency < samplerate_hz then filter_frequency else samplerate_hz
  let divisor : ℤ := (((2 * filter_frequency + sr) / (2 * sr) : ℕ) : ℤ) - 1
  let divisor2 : ℤ := if divisor < 0 then 0 else divisor
  let divisor3 : ℤ := if 0xff < divisor2 then 0xff else divisor2
  divisor3.toNat

/-- Source lines 326-348: `PIOS_MPU6500_SetSampleRate` programs the computed
divisor byte into the sample-rate-divider register. -/
def PIOS_MPU6500_SetSampleRate (e : Spi) (samplerate_hz : ℕ) (s : St) : St :=
  (PIOS_MPU6500_SetReg e PIOS_MPU60X0_SMPLRT_DIV_REG
    (sampleRateDivisor (devFilter s) samplerate_hz) s).2

/-- Modelled from the spec: the divisor derivation as the spec words it, with
`round` the exact round-half-up of the rational quotient: clamp the requested
rate to the filter clock, compute `round(filter_clock / rate) - 1`, clamp to
`[0, 255]`. -/
def specDivisor (wide : Bool) (requested : ℕ) : ℤ :=
  let fc : ℕ := if wide then 8000 else 1000
  let rc : ℕ := min requested fc
  min 255 (max 0 (round ((fc : ℚ) / (rc : ℚ)) - 1))

/-- Source lines 171-215: `PIOS_MPU6500_Config`, the
`PIOS_MPU6500_SIMPLE_INIT_SEQUENCE` path.  Every step's return value is
ignored (the error check on the first write is commented out in the source)
and the configured flag is set unconditionally at the end; the alternate
path (lines 216-282) likewise ends with an unconditional
`pios_mpu6500_dev->configured = true`.  `PIOS_DELAY_WaitmS` and
`PIOS_WDG_Clear` are external timing services with no modelled state. -/
def PIOS_MPU6500_Config (e : Spi) (cfg : Mpu60x0Cfg) (s : St) : St :=
  let s := (PIOS_MPU6500_SetReg e PIOS_MPU60X0_PWR_MGMT_REG PIOS_MPU60X0_PWRMGMT_IMU_RST s).2
  let s := (PIOS_MPU6500_SetReg e PIOS_MPU60X0_USER_CTRL_REG PIOS_MPU60X0_USERCTL_GYRO_RST s).2
  let s := (PIOS_MPU6500_SetReg e PIOS_MPU60X0_PWR_MGMT_REG cfg.Pwr_mgmt_clk s).2
  let s := (PIOS_MPU6500_SetReg e PIOS_MPU60X0_USER_CTRL_REG cfg.User_ctl s).2
  let s := PIOS_MPU6500_SetLPF e cfg.default_filter s
  let s := PIOS_MPU6500_SetSampleRate e cfg.default_samplerate s
  let s := PIOS_MPU6500_SetGyroRange e PIOS_MPU60X0_SCALE_500_DEG s
  let s := PIOS_MPU6500_SetAccelRange e PIOS_MPU60X0_ACCEL_8G s
  let s := (PIOS_MPU6500_SetReg e PIOS_MPU60X0_INT_CFG_REG cfg.interrupt_cfg s).2
  let s := (PIOS_MPU6500_SetReg e PIOS_MPU60X0_INT_EN_REG cfg.interrupt_en s).2
  { s with dev := s.dev.map (fun d => { d with configured := true }) }

/-- Bitwise and of an `int32` value (two's complement) with a mask, as the
C expression `GetReg(...) & mask` computes it. -/
def int32Land (v : ℤ) (m : ℕ) : ℕ :=
  (v % (2 ^ 32 : ℤ)).toNat &&& m

/-- Source lines 230-232 and 238-240, the reset-completion polling loops of
the alternate (non-simple) configuration path:
`do { PIOS_DELAY_WaitmS(5); } while (GetReg(reg) & mask);`.
The C loop has no iteration bound; `fuel` makes the partial loop total,
returning `none` when the loop has not exited within `fuel` iterations.
(The second loop's guard is spelled `PIOS_MPU5000_GetReg` in the source, an
undeclared identifier read here as `PIOS_MPU6500_GetReg`.) -/
def configPollLoop (e : Spi) (reg mask : ℕ) : ℕ → St → Option St
  | 0, _ => none
  | fuel + 1, s =>
    let g := PIOS_MPU6500_GetReg e reg s
    if int32Land g.1 mask = 0 then some g.2
    else configPollLoop e reg mask fuel g.2

/-- Source lines 473-481: `PIOS_MPU6500_ReadID`.  The source as written tests
the undeclared identifier `MPU6500_id` (line 477) where the variable declared
on line 475 is `mpu6500_id`; the evident intended test `mpu6500_id < 0` is
modelled. -/
def PIOS_MPU6500_ReadID (e : Spi) (s : St) : ℤ × St :=
  let g := PIOS_MPU6500_GetReg e PIOS_MPU60X0_WHOAMI s
  if g.1 < 0 then (-1, g.2) else g

/-- Source lines 530-542: `PIOS_MPU6500_Test`. -/
def PIOS_MPU6500_Test (e : Spi) (s : St) : ℤ × St :=
  let r := PIOS_MPU6500_ReadID e s
  if r.1 < 0 then (-1, r.2)
  else if r.1 ≠ (MPU6500_WHOAMI_ID : ℤ) then (-2, r.2)
  else (0, r.2)

/-- Source lines 487-501: `PIOS_MPU6500_GetGyroScale`, parameterised by the
cached `gyro_range` it reads; the switch falls through to `return 0` for any
value outside the four enum constants.  Float constants are embedded as the
exact rationals they denote in the source text. -/
def PIOS_MPU6500_GetGyroScale (gyro_range : ℕ) : ℚ :=
  if gyro_range = PIOS_MPU60X0_SCALE_250_DEG then 1 / 131
  else if gyro_range = PIOS_MPU60X0_SCALE_500_DEG then 1 / 65.5
  else if gyro_range = PIOS_MPU60X0_SCALE_1000_DEG then 1 / 32.8
  else if gyro_range = PIOS_MPU60X0_SCALE_2000_DEG then 1 / 16.4
  else 0

/-- Source lines 508-522: `PIOS_MPU6500_GetAccelScale`, parameterised by the
cached `accel_range`; falls through to `return 0` outside the enum. -/
def PIOS_MPU6500_GetAccelScale (accel_range : ℕ) : ℚ :=
  if accel_range = PIOS_MPU60X0_ACCEL_2G then GRAVITY / 16384
  else if accel_range = PIOS_MPU60X0_ACCEL_4G then GRAVITY / 8192
  else if accel_range = PIOS_MPU60X0_ACCEL_8G then GRAVITY / 4096
  else if accel_range = PIOS_MPU60X0_ACCEL_16G then GRAVITY / 2048
  else 0

/-- The C decode `(int16_t)(hi << 8 | lo)`: big-endian signed 16-bit value
from two received bytes. -/
def sext16 (hi lo : ℕ) : ℤ :=
  let v := (hi % 256) * 256 + lo % 256
  if v < 32768 then (v : ℤ) else (v : ℤ) - 65536

/-- Source lines 597-622, the accel arm of the orientation switch in
`PIOS_MPU6500_IRQHandler`: body-frame (x, y) from the received buffer
(indices 1-4 are accel X/Y high/low bytes). -/
def accelDecodeXY (o : Mpu60x0Orient) (buf : Fin 15 → ℕ) : ℤ × ℤ :=
  match o with
  | Mpu60x0Orient.top0deg =>
    (sext16 (buf 3) (buf 4), sext16 (buf 1) (buf 2))
  | Mpu60x0Orient.top90deg =>
    (sext16 (buf 1) (buf 2), -sext16 (buf 3) (buf 4))
  | Mpu60x0Orient.top180deg =>
    (-sext16 (buf 3) (buf 4), -sext16 (buf 1) (buf 2))
  | Mpu60x0Orient.top270deg =>
    (-sext16 (buf 1) (buf 2), sext16 (buf 3) (buf 4))

/-- Source lines 597-622, the gyro arm of the orientation switch in
`PIOS_MPU6500_IRQHandler` (indices 9-12 are gyro X/Y high/low bytes). -/
def gyroDecodeXY (o : Mpu60x0Orient) (buf : Fin 15 → ℕ) : ℤ × ℤ :=
  match o with
  | Mpu60x0Orient.top0deg =>
    (sext16 (buf 11) (buf 12), sext16 (buf 9) (buf 10))
  | Mpu60x0Orient.top90deg =>
    (sext16 (buf 9) (buf 10), -sext16 (buf 11) (buf 12))
  | Mpu60x0Orient.top180deg =>
    (-sext16 (buf 11) (buf 12), -sext16 (buf 9) (buf 10))
  | Mpu60x0Orient.top270deg =>
    (-sext16 (buf 9) (buf 10), sext16 (buf 11) (buf 12))

/-- Source line 625: `accel_data.z = -(int16_t)(buf[5] << 8 | buf[6])`. -/
def accelDecodeZ (buf : Fin 15 → ℕ) : ℤ :=
  -sext16 (buf 5) (buf 6)

/-- Source line 624: `gyro_data.z = -(int16_t)(buf[13] << 8 | buf[14])`. -/
def gyroDecodeZ (buf : Fin 15 → ℕ) : ℤ :=
  -sext16 (buf 13) (buf 14)

/-- One shared swap/sign rule on a raw (x, y) pair, selected by orientation:
the rule the spec requires both sensors to use. -/
def remapXY (o : Mpu60x0Orient) (raw_x raw_y : ℤ) : ℤ × ℤ :=
  match o with
  | Mpu60x0Orient.top0deg => (raw_y, raw_x)
  | Mpu60x0Orient.top90deg => (raw_x, -raw_y)
  | Mpu60x0Orient.top180deg => (-raw_y, -raw_x)
  | Mpu60x0Orient.top270deg => (-raw_x, raw_y)

/-- External primitive `xQueueSendToBackFromISR` on a bounded queue of
capacity `PIOS_MPU6500_MAX_QUEUESIZE`: enqueue never blocks; whether a
higher-priority task was woken by a successful enqueue comes from the
oracle, and a full queue wakes nothing. -/
def queueSendToBackFromISR {α : Type} (e : Spi) (q : List α) (x : α) (s : St) :
    List α × Bool × St :=
  let woken := decide (q.length < PIOS_MPU6500_MAX_QUEUESIZE) && e.queueWoken s.nQueue
  let q2 := if q.length < PIOS_MPU6500_MAX_QUEUESIZE then q ++ [x] else q
  (q2, woken, { s with nQueue := s.nQueue + 1 })

/-- Source lines 547-650: `PIOS_MPU6500_IRQHandler` with `PIOS_MPU6500_ACCEL`
enabled: validate and check the configured flag, claim the bus (ISR variant),
burst-read 15 bytes, release the bus, decode/orient/scale both samples,
enqueue them, and report whether a reschedule is warranted. -/
def PIOS_MPU6500_IRQHandler (e : Spi) (s : St) : Bool × St :=
  if PIOS_MPU6500_Validate s.dev ≠ 0 ∨ devConfigured s = false then (false, s)
  else
    let c := PIOS_MPU6500_ClaimBusISR e false s
    if c.1 ≠ 0 then (false, c.2.2)
    else
      let tb := PIOS_SPI_TransferBlock e c.2.2
      if tb.1 < 0 then
        let rel := PIOS_MPU6500_ReleaseBusISR e c.2.1 tb.2.2
        (false, rel.2.2)
      else
        let rel := PIOS_MPU6500_ReleaseBusISR e c.2.1 tb.2.2
        let buf := tb.2.1
        let axy := accelDecodeXY (devOrient s) buf
        let gxy := gyroDecodeXY (devOrient s) buf
        let raw_temp := sext16 (buf 7) (buf 8)
        let temperature : ℚ := 35 + ((raw_temp : ℚ) + 512) / 340
        let accel_scale := PIOS_MPU6500_GetAccelScale (devAccelRange s)
        let accel_data : pios_sensor_accel_data :=
          ⟨(axy.1 : ℚ) * accel_scale, (axy.2 : ℚ) * accel_scale,
           (accelDecodeZ buf : ℚ) * accel_scale, temperature⟩
        let gyro_scale := PIOS_MPU6500_GetGyroScale (devGyroRange s)
        let gyro_data : pios_sensor_gyro_data :=
          ⟨(gxy.1 : ℚ) * gyro_scale, (gxy.2 : ℚ) * gyro_scale,
           (gyroDecodeZ buf : ℚ) * gyro_scale, temperature⟩
        let qa := queueSendToBackFromISR e rel.2.2.accelQueue accel_data rel.2.2
        let s4 := { qa.2.2 with accelQueue := qa.1 }
        let qg := queueSendToBackFromISR e s4.gyroQueue gyro_data s4
        let s5 := { qg.2.2 with gyroQueue := qg.1 }
        (qa.2.1 || qg.2.1 || rel.2.1, s5)

/-- Concrete board configuration used by witnesses and counterexamples. -/
def cfg0 : Mpu60x0Cfg :=
  ⟨3, 16, PIOS_MPU60X0_LOWPASS_188_HZ, 500, 2, 1, Mpu60x0Orient.top0deg⟩

/-- Concrete valid, not-yet-configured device instance. -/
def dev0 : Mpu6500Dev :=
  ⟨1, 0, PIOS_MPU60X0_SCALE_250_DEG, PIOS_MPU60X0_ACCEL_2G, cfg0, false,
   pios_mpu6500_dev_MAGIC, PIOS_MPU60X0_LOWPASS_256_HZ⟩

/-- Concrete initial state holding `dev0`, all hardware registers zeroed. -/
def st0 : St :=
  { dev := some dev0, hwRegs := fun _ => 0 }

/-- Concrete state with a NULL device handle. -/
def stNone : St :=
  { dev := none, hwRegs := fun _ => 0 }

/-- Oracle on which every bus primitive succeeds and every received byte is 0. -/
def envOk : Spi :=
  ⟨fun _ => 0, fun _ => 0, fun _ => 0, fun _ => 0, fun _ _ => 0,
   fun _ => false, fun _ => false⟩

/-- Oracle on which every bus-arbitration attempt fails. -/
def envFail : Spi :=
  { envOk with claimResults := fun _ => -1 }

/-- Oracle on which every transferred byte reads back `0x80`: arbitration
succeeds but the polled reset bit never clears. -/
def envStuck : Spi :=
  { envOk with byteResults := fun _ => 0x80 }

theorem setReg_dev (e : Spi) (reg v : ℕ) (s : St) :
    (PIOS_MPU6500_SetReg e reg v s).2.dev = s.dev := by
  simp only [PIOS_MPU6500_SetReg, PIOS_MPU6500_ClaimBus, PIOS_MPU6500_ReleaseBus,
    PIOS_SPI_ClaimBus, PIOS_SPI_ReleaseBus, PIOS_SPI_TransferByte]
  split_ifs <;> rfl

theorem getReg_dev (e : Spi) (reg : ℕ) (s : St) :
    (PIOS_MPU6500_GetReg e reg s).2.dev = s.dev := by
  simp only [PIOS_MPU6500_GetReg, PIOS_MPU6500_ClaimBus, PIOS_MPU6500_ReleaseBus,
    PIOS_SPI_ClaimBus, PIOS_SPI_ReleaseBus, PIOS_SPI_TransferByte]
  split_ifs <;> rfl

theorem setReg_ok_eq (e : Spi) (reg v : ℕ) (s : St)
    (hv : PIOS_MPU6500_Validate s.dev = 0)
    (hc : e.claimResults s.nClaim = 0)
    (hb1 : e.byteResults s.nByte % 256 = 0)
    (hb2 : e.byteResults (s.nByte + 1) % 256 = 0) :
    PIOS_MPU6500_SetReg e reg v s =
      (0, { s with
            nClaim := s.nClaim + 1, nByte := s.nByte + 2, nRelease := s.nRelease + 1
            hwRegs := fun a => if a = reg then v % 256 else s.hwRegs a
            events := s.events ++ [.claim, .transferByte, .transferByte, .release] }) := by
  simp [PIOS_MPU6500_SetReg, PIOS_MPU6500_ClaimBus, PIOS_MPU6500_ReleaseBus,
    PIOS_SPI_ClaimBus, PIOS_SPI_ReleaseBus, PIOS_SPI_TransferByte, hv, hc, hb1, hb2]

theorem getReg_ok_eq (e : Spi) (reg : ℕ) (s : St)
    (hv : PIOS_MPU6500_Validate s.dev = 0)
    (hc : e.claimResults s.nClaim = 0) :
    PIOS_MPU6500_GetReg e reg s =
      (((e.byteResults (s.nByte + 1) % 256 : ℕ) : ℤ),
        { s with
          nClaim := s.nClaim + 1, nByte := s.nByte + 2, nRelease := s.nRelease + 1
          events := s.events ++ [.claim, .transferByte, .transferByte, .release] }) := by
  simp [PIOS_MPU6500_GetReg, PIOS_MPU6500_ClaimBus, PIOS_MPU6500_ReleaseBus,
    PIOS_SPI_ClaimBus, PIOS_SPI_ReleaseBus, PIOS_SPI_TransferByte, hv, hc]

theorem getReg_claimFail_eq (e : Spi) (reg : ℕ) (s : St)
    (hv : PIOS_MPU6500_Validate s.dev = 0)
    (hc : e.claimResults s.nClaim ≠ 0) :
    PIOS_MPU6500_GetReg e reg s =
      (-1, { s with nClaim := s.nClaim + 1, events := s.events ++ [BusEvent.claim] }) := by
  simp [PIOS_MPU6500_GetReg, PIOS_MPU6500_ClaimBus, PIOS_SPI_ClaimBus, hv, hc]

theorem setReg_claimFail_eq (e : Spi) (reg v : ℕ) (s : St)
    (hv : PIOS_MPU6500_Validate s.dev = 0)
    (hc : e.claimResults s.nClaim ≠ 0) :
    PIOS_MPU6500_SetReg e reg v s =
      (-1, { s with nClaim := s.nClaim + 1, events := s.events ++ [BusEvent.claim] }) := by
  simp [PIOS_MPU6500_SetReg, PIOS_MPU6500_ClaimBus, PIOS_SPI_ClaimBus, hv, hc]

theorem setReg_eq_zero_validate (e : Spi) (reg v : ℕ) (s : St)
    (h : (PIOS_MPU6500_SetReg e reg v s).1 = 0) :
    PIOS_MPU6500_Validate s.dev = 0 := by
  by_contra hv
  simp [PIOS_MPU6500_SetReg, PIOS_MPU6500_ClaimBus, hv] at h

theorem setReg_eq_zero_hwRegs (e : Spi) (reg v : ℕ) (s : St)
    (h : (PIOS_MPU6500_SetReg e reg v s).1 = 0) :
    (PIOS_MPU6500_SetReg e reg v s).2.hwRegs =
      fun a => if a = reg then v % 256 else s.hwRegs a := by
  simp only [PIOS_MPU6500_SetReg, PIOS_MPU6500_ClaimBus, PIOS_MPU6500_ReleaseBus,
    PIOS_SPI_ClaimBus, PIOS_SPI_ReleaseBus, PIOS_SPI_TransferByte] at h ⊢
  split_ifs at h ⊢ <;> simp_all

theorem validate_eq_zero_some (o : Option Mpu6500Dev)
    (h : PIOS_MPU6500_Validate o = 0) : ∃ d, o = some d := by
  cases o with
  | none => simp [PIOS_MPU6500_Validate] at h
  | some d => exact ⟨d, rfl⟩

theorem round_natCast_div (a b : ℕ) (hb : b ≠ 0) :
    round ((a : ℚ) / (b : ℚ)) = (((2 * a + b) / (2 * b) : ℕ) : ℤ) := by
  have hb0 : ((b : ℚ)) ≠ 0 := Nat.cast_ne_zero.mpr hb
  have hx : (a : ℚ) / b + 1 / 2 = ((2 * a + b : ℕ) : ℚ) / ((2 * b : ℕ) : ℚ) := by
    push_cast
    field_simp
    ring
  rw [round_eq, hx, ← Int.natCast_floor_eq_floor (by positivity), Nat.floor_div_eq_div]

theorem setGyroRange_dev (e : Spi) (g : ℕ) (s : St) :
    (PIOS_MPU6500_SetGyroRange e g s).dev =
      s.dev.map (fun d => { d with gyro_range := g }) := by
  simp [PIOS_MPU6500_SetGyroRange, setReg_dev]

theorem setAccelRange_dev (e : Spi) (a : ℕ) (s : St) :
    (PIOS_MPU6500_SetAccelRange e a s).dev =
      s.dev.map (fun d => { d with accel_range := a }) := by
  simp [PIOS_MPU6500_SetAccelRange, setReg_dev]

theorem setLPF_dev (e : Spi) (f : ℕ) (s : St) :
    (PIOS_MPU6500_SetLPF e f s).dev =
      s.dev.map (fun d => { d with filter := f }) := by
  simp [PIOS_MPU6500_SetLPF, setReg_dev]

theorem setSampleRate_dev (e : Spi) (r : ℕ) (s : St) :
    (PIOS_MPU6500_SetSampleRate e r s).dev = s.dev := by
  simp [PIOS_MPU6500_SetSampleRate, setReg_dev]

theorem config_dev (e : Spi) (cfg : Mpu60x0Cfg) (s : St) :
    (PIOS_MPU6500_Config e cfg s).dev =
      s.dev.map (fun d =>
        { d with
          filter := cfg.default_filter
          gyro_range := PIOS_MPU60X0_SCALE_500_DEG
          accel_range := PIOS_MPU60X0_ACCEL_8G
          configured := true }) := by
  simp only [PIOS_MPU6500_Config, setReg_dev, setGyroRange_dev, setAccelRange_dev,
    setLPF_dev, setSampleRate_dev, Option.map_map]
  cases s.dev <;> rfl

theorem validate_some_iff (d : Mpu6500Dev) :
    PIOS_MPU6500_Validate (some d) = 0 ↔
      (d.magic = pios_mpu6500_dev_MAGIC ∧ d.spi_id ≠ 0) := by
  simp only [PIOS_MPU6500_Validate]
  split_ifs with h1 h2 <;> simp_all

/-- C1 counterexample: on an oracle where every bus claim fails, the very
first register-write step of `PIOS_MPU6500_Config` returns `-1`, yet after the
sequence the configured flag is `true` — refuting the claim that any failing
step leaves the flag false. -/
theorem C1_config_flag_counterexample :
    (PIOS_MPU6500_SetReg envFail PIOS_MPU60X0_PWR_MGMT_REG PIOS_MPU60X0_PWRMGMT_IMU_RST st0).1
        = -1 ∧
    devConfigured (PIOS_MPU6500_Config envFail cfg0 st0) = true :=
  ⟨by decide, by decide⟩

/-- C1 (amended): `PIOS_MPU6500_Config` ignores the result of every
register-write step and sets the configured flag to `true` unconditionally at
the end of the sequence, for every oracle, configuration and live device. -/
theorem C1_config_sets_configured_unconditionally (e : Spi) (cfg : Mpu60x0Cfg) (s : St)
    (d : Mpu6500Dev) (h : s.dev = some d) :
    devConfigured (PIOS_MPU6500_Config e cfg s) = true := by
  simp [devConfigured, config_dev, h]

/-- C1 witness: the amended theorem instantiated on the concrete all-fail run. -/
theorem C1_config_witness :
    st0.dev = some dev0 ∧ devConfigured (PIOS_MPU6500_Config envFail cfg0 st0) = true :=
  ⟨rfl, C1_config_sets_configured_unconditionally envFail cfg0 st0 dev0 rfl⟩

/-- C2 counterexample: when the bus claim fails, `PIOS_MPU6500_SetGyroRange`
still updates the cached range, leaving the cache different from the byte
last written to the gyro-config hardware register — refuting the claimed
invariant for failed writes. -/
theorem C2_range_cache_counterexample :
    (PIOS_MPU6500_SetReg envFail PIOS_MPU60X0_GYRO_CFG_REG PIOS_MPU60X0_SCALE_500_DEG st0).1
        = -1 ∧
    devGyroRange (PIOS_MPU6500_SetGyroRange envFail PIOS_MPU60X0_SCALE_500_DEG st0) ≠
      (PIOS_MPU6500_SetGyroRange envFail PIOS_MPU60X0_SCALE_500_DEG st0).hwRegs
        PIOS_MPU60X0_GYRO_CFG_REG :=
  ⟨by decide, by decide⟩

/-- C2 (amended): `PIOS_MPU6500_SetGyroRange` and `PIOS_MPU6500_SetAccelRange`
leave the cached range equal to the hardware register whenever the underlying
register write succeeds (the cache update itself is unconditional). -/
theorem C2_range_cache_matches_hw_on_success (e : Spi) (s : St) (g a : ℕ)
    (hg : g < 256) (ha : a < 256) :
    ((PIOS_MPU6500_SetReg e PIOS_MPU60X0_GYRO_CFG_REG g s).1 = 0 →
      devGyroRange (PIOS_MPU6500_SetGyroRange e g s) =
        (PIOS_MPU6500_SetGyroRange e g s).hwRegs PIOS_MPU60X0_GYRO_CFG_REG) ∧
    ((PIOS_MPU6500_SetReg e PIOS_MPU60X0_ACCEL_CFG_REG a s).1 = 0 →
      devAccelRange (PIOS_MPU6500_SetAccelRange e a s) =
        (PIOS_MPU6500_SetAccelRange e a s).hwRegs PIOS_MPU60X0_ACCEL_CFG_REG) := by
  constructor
  · intro h
    obtain ⟨d, hd⟩ := validate_eq_zero_some _ (setReg_eq_zero_validate _ _ _ _ h)
    have hw := setReg_eq_zero_hwRegs _ _ _ _ h
    simp [PIOS_MPU6500_SetGyroRange, devGyroRange, setReg_dev, hd, hw, Nat.mod_eq_of_lt hg]
  · intro h
    obtain ⟨d, hd⟩ := validate_eq_zero_some _ (setReg_eq_zero_validate _ _ _ _ h)
    have hw := setReg_eq_zero_hwRegs _ _ _ _ h
    simp [PIOS_MPU6500_SetAccelRange, devAccelRange, setReg_dev, hd, hw, Nat.mod_eq_of_lt ha]

/-- C2 witness: the amended theorem instantiated on a concrete successful write. -/
theorem C2_range_cache_witness :
    (8 : ℕ) < 256 ∧ (16 : ℕ) < 256 ∧
    ((PIOS_MPU6500_SetReg envOk PIOS_MPU60X0_GYRO_CFG_REG 8 st0).1 = 0 →
      devGyroRange (PIOS_MPU6500_SetGyroRange envOk 8 st0) =
        (PIOS_MPU6500_SetGyroRange envOk 8 st0).hwRegs PIOS_MPU60X0_GYRO_CFG_REG) :=
  ⟨by decide, by decide,
   (C2_range_cache_matches_hw_on_success envOk st0 8 16 (by decide) (by decide)).1⟩

theorem setReg_hwRegs_other (e : Spi) (reg v a : ℕ) (s : St) (hne : a ≠ reg) :
    (PIOS_MPU6500_SetReg e reg v s).2.hwRegs a = s.hwRegs a := by
  simp only [PIOS_MPU6500_SetReg, PIOS_MPU6500_ClaimBus, PIOS_MPU6500_ReleaseBus,
    PIOS_SPI_ClaimBus, PIOS_SPI_ReleaseBus, PIOS_SPI_TransferByte]
  split_ifs <;> simp [hne]

theorem setGyroRange_hwRegs (e : Spi) (g : ℕ) (s : St) :
    (PIOS_MPU6500_SetGyroRange e g s).hwRegs =
      (PIOS_MPU6500_SetReg e PIOS_MPU60X0_GYRO_CFG_REG g s).2.hwRegs := rfl

theorem setAccelRange_hwRegs (e : Spi) (a : ℕ) (s : St) :
    (PIOS_MPU6500_SetAccelRange e a s).hwRegs =
      (PIOS_MPU6500_SetReg e PIOS_MPU60X0_ACCEL_CFG_REG a s).2.hwRegs := rfl

theorem setReg_ok_hwRegs_same (e : Spi) (reg v : ℕ) (s : St)
    (hv : PIOS_MPU6500_Validate s.dev = 0)
    (hc : e.claimResults s.nClaim = 0)
    (hb1 : e.byteResults s.nByte % 256 = 0)
    (hb2 : e.byteResults (s.nByte + 1) % 256 = 0) :
    (PIOS_MPU6500_SetReg e reg v s).2.hwRegs reg = v % 256 := by
  rw [setReg_ok_eq e reg v s hv hc hb1 hb2]
  simp

/-- C5 counterexample: on a concrete successful run, the configuration
sequence programs gyro range `0x08` (500 deg/s), not the claimed second-widest
1000 deg/s, and accel range `0x10` (8 g), not the claimed 4 g. -/
theorem C5_default_ranges_counterexample :
    (PIOS_MPU6500_Config envOk cfg0 st0).hwRegs PIOS_MPU60X0_GYRO_CFG_REG =
        PIOS_MPU60X0_SCALE_500_DEG ∧
    PIOS_MPU60X0_SCALE_500_DEG ≠ PIOS_MPU60X0_SCALE_1000_DEG ∧
    (PIOS_MPU6500_Config envOk cfg0 st0).hwRegs PIOS_MPU60X0_ACCEL_CFG_REG =
        PIOS_MPU60X0_ACCEL_8G ∧
    PIOS_MPU60X0_ACCEL_8G ≠ PIOS_MPU60X0_ACCEL_4G :=
  ⟨by decide, by decide, by decide, by decide⟩

/-- C5 (amended): on every successful run, `PIOS_MPU6500_Config` programs and
caches gyro full-scale 500 deg/s (the second-narrowest of the four) and accel
full-scale 8 g (the second-widest of the four) as defaults. -/
theorem C5_default_ranges (e : Spi) (cfg : Mpu60x0Cfg) (s : St) (d : Mpu6500Dev)
    (hd : s.dev = some d) (hm : d.magic = pios_mpu6500_dev_MAGIC) (hs : d.spi_id ≠ 0)
    (hc : ∀ n, e.claimResults n = 0) (hb : ∀ n, e.byteResults n = 0) :
    devGyroRange (PIOS_MPU6500_Config e cfg s) = PIOS_MPU60X0_SCALE_500_DEG ∧
    devAccelRange (PIOS_MPU6500_Config e cfg s) = PIOS_MPU60X0_ACCEL_8G ∧
    (PIOS_MPU6500_Config e cfg s).hwRegs PIOS_MPU60X0_GYRO_CFG_REG =
      PIOS_MPU60X0_SCALE_500_DEG ∧
    (PIOS_MPU6500_Config e cfg s).hwRegs PIOS_MPU60X0_ACCEL_CFG_REG =
      PIOS_MPU60X0_ACCEL_8G := by
  refine ⟨by simp [devGyroRange, config_dev, hd], by simp [devAccelRange, config_dev, hd], ?_, ?_⟩
  all_goals
    simp only [PIOS_MPU6500_Config]
    set s1 := (PIOS_MPU6500_SetReg e PIOS_MPU60X0_PWR_MGMT_REG PIOS_MPU60X0_PWRMGMT_IMU_RST s).2
      with hs1
    set s2 := (PIOS_MPU6500_SetReg e PIOS_MPU60X0_USER_CTRL_REG PIOS_MPU60X0_USERCTL_GYRO_RST
      s1).2 with hs2
    set s3 := (PIOS_MPU6500_SetReg e PIOS_MPU60X0_PWR_MGMT_REG cfg.Pwr_mgmt_clk s2).2 with hs3
    set s4 := (PIOS_MPU6500_SetReg e PIOS_MPU60X0_USER_CTRL_REG cfg.User_ctl s3).2 with hs4
    set s5 := PIOS_MPU6500_SetLPF e cfg.default_filter s4 with hs5
    set s6 := PIOS_MPU6500_SetSampleRate e cfg.default_samplerate s5 with hs6
    set s7 := PIOS_MPU6500_SetGyroRange e PIOS_MPU60X0_SCALE_500_DEG s6 with hs7
    set s8 := PIOS_MPU6500_SetAccelRange e PIOS_MPU60X0_ACCEL_8G s7 with hs8
    set s9 := (PIOS_MPU6500_SetReg e PIOS_MPU60X0_INT_CFG_REG cfg.interrupt_cfg s8).2 with hs9
    set s10 := (PIOS_MPU6500_SetReg e PIOS_MPU60X0_INT_EN_REG cfg.interrupt_en s9).2 with hs10
    have hd6 : s6.dev = some { d with filter := cfg.default_filter } := by
      rw [hs6, setSampleRate_dev, hs5, setLPF_dev, hs4, setReg_dev, hs3, setReg_dev,
        hs2, setReg_dev, hs1, setReg_dev, hd]
      rfl
    have hv6 : PIOS_MPU6500_Validate s6.dev = 0 := by
      rw [hd6, validate_some_iff]
      exact ⟨hm, hs⟩
    have hd7 : s7.dev = some { d with
        filter := cfg.default_filter, gyro_range := PIOS_MPU60X0_SCALE_500_DEG } := by
      rw [hs7, setGyroRange_dev, hd6]
      rfl
    have hv7 : PIOS_MPU6500_Validate s7.dev = 0 := by
      rw [hd7, validate_some_iff]
      exact ⟨hm, hs⟩
  · show s10.hwRegs PIOS_MPU60X0_GYRO_CFG_REG = PIOS_MPU60X0_SCALE_500_DEG
    rw [hs10, setReg_hwRegs_other e _ _ _ _ (by decide), hs9,
      setReg_hwRegs_other e _ _ _ _ (by decide), hs8, setAccelRange_hwRegs,
      setReg_hwRegs_other e _ _ _ _ (by decide), hs7, setGyroRange_hwRegs,
      setReg_ok_hwRegs_same e _ _ _ hv6 (hc _) (by simp [hb]) (by simp [hb])]
    decide
  · show s10.hwRegs PIOS_MPU60X0_ACCEL_CFG_REG = PIOS_MPU60X0_ACCEL_8G
    rw [hs10, setReg_hwRegs_other e _ _ _ _ (by decide), hs9,
      setReg_hwRegs_other e _ _ _ _ (by decide), hs8, setAccelRange_hwRegs,
      setReg_ok_hwRegs_same e _ _ _ hv7 (hc _) (by simp [hb]) (by simp [hb])]
    decide

/-- C5 witness: the amended theorem instantiated on the concrete all-success
run. -/
theorem C5_default_ranges_witness :
    st0.dev = some dev0 ∧ dev0.magic = pios_mpu6500_dev_MAGIC ∧ dev0.spi_id ≠ 0 ∧
    devGyroRange (PIOS_MPU6500_Config envOk cfg0 st0) = PIOS_MPU60X0_SCALE_500_DEG :=
  ⟨rfl, rfl, by decide,
   (C5_default_ranges envOk cfg0 st0 dev0 rfl rfl (by decide)
      (fun _ => rfl) (fun _ => rfl)).1⟩

/-- C3: the divisor byte `PIOS_MPU6500_SetSampleRate` programs equals the
spec's derivation (filter clock 8000 Hz for the widest filter else 1000 Hz,
rate clamped to the filter clock, `round(clock / rate) - 1` clamped to
`[0, 255]`), it is exactly 15 for 500 Hz with the wide filter, and exactly 0
for any rate exceeding the filter clock. -/
theorem C3_sample_rate_divisor_spec :
    (∀ f r, 1 ≤ r →
      ((sampleRateDivisor f r : ℕ) : ℤ) =
        specDivisor (decide (f = PIOS_MPU60X0_LOWPASS_256_HZ)) r) ∧
    sampleRateDivisor PIOS_MPU60X0_LOWPASS_256_HZ 500 = 15 ∧
    (∀ f r, (if f = PIOS_MPU60X0_LOWPASS_256_HZ then 8000 else 1000) < r →
      sampleRateDivisor f r = 0) := by
  refine ⟨?_, by decide, ?_⟩
  · intro f r hr
    by_cases hf : f = PIOS_MPU60X0_LOWPASS_256_HZ
    · simp only [sampleRateDivisor, specDivisor, hf, decide_True, ne_eq, not_true_eq_false,
        if_false, if_true, ite_true, ite_false]
      have hsr : (if (8000 : ℕ) < r then 8000 else r) = min r 8000 := by
        rcases Nat.lt_or_ge 8000 r with h | h
        · rw [if_pos h]
          omega
        · rw [if_neg (by omega)]
          omega
      rw [hsr, round_natCast_div 8000 (min r 8000) (by omega)]
      have hq : 1 ≤ (2 * 8000 + min r 8000) / (2 * min r 8000) := by
        rw [Nat.one_le_div_iff (by omega)]
        omega
      generalize (2 * 8000 + min r 8000) / (2 * min r 8000) = q at hq
      split_ifs <;> omega
    · simp only [sampleRateDivisor, specDivisor, hf, decide_False, ne_eq, not_false_eq_true,
        if_true, if_false, ite_true, ite_false, Bool.false_eq_true]
      have hsr : (if (1000 : ℕ) < r then 1000 else r) = min r 1000 := by
        rcases Nat.lt_or_ge 1000 r with h | h
        · rw [if_pos h]
          omega
        · rw [if_neg (by omega)]
          omega
      rw [hsr, round_natCast_div 1000 (min r 1000) (by omega)]
      have hq : 1 ≤ (2 * 1000 + min r 1000) / (2 * min r 1000) := by
        rw [Nat.one_le_div_iff (by omega)]
        omega
      generalize (2 * 1000 + min r 1000) / (2 * min r 1000) = q at hq
      split_ifs <;> omega
  · intro f r hfc
    by_cases hf : f = PIOS_MPU60X0_LOWPASS_256_HZ
    · rw [if_pos hf] at hfc
      simp only [sampleRateDivisor, hf, ne_eq, not_true_eq_false, if_false, ite_false]
      rw [if_pos hfc]
      decide
    · rw [if_neg hf] at hfc
      simp only [sampleRateDivisor, hf, ne_eq, not_false_eq_true, if_true, ite_true]
      rw [if_pos hfc]
      decide

/-- C3 witness: the theorem's quantified parts instantiated at 400 Hz and
1500 Hz with the 188 Hz filter. -/
theorem C3_sample_rate_divisor_witness :
    (1 ≤ 400 ∧
      ((sampleRateDivisor PIOS_MPU60X0_LOWPASS_188_HZ 400 : ℕ) : ℤ) =
        specDivisor (decide (PIOS_MPU60X0_LOWPASS_188_HZ = PIOS_MPU60X0_LOWPASS_256_HZ)) 400) ∧
    ((if PIOS_MPU60X0_LOWPASS_188_HZ = PIOS_MPU60X0_LOWPASS_256_HZ then 8000 else 1000) < 1500 ∧
      sampleRateDivisor PIOS_MPU60X0_LOWPASS_188_HZ 1500 = 0) :=
  ⟨⟨by decide, C3_sample_rate_divisor_spec.1 PIOS_MPU60X0_LOWPASS_188_HZ 400 (by decide)⟩,
   ⟨by decide, C3_sample_rate_divisor_spec.2.2 PIOS_MPU60X0_LOWPASS_188_HZ 1500 (by decide)⟩⟩

theorem int32Land_natCast (n m : ℕ) (h : n < 2 ^ 32) :
    int32Land (n : ℤ) m = n &&& m := by
  unfold int32Land
  rw [Int.emod_eq_of_lt (Int.natCast_nonneg n) (by exact_mod_cast h), Int.toNat_natCast]

theorem configPollLoop_stuck_none :
    ∀ (fuel : ℕ) (s : St), s.dev = some dev0 →
      configPollLoop envStuck PIOS_MPU60X0_PWR_MGMT_REG 0x80 fuel s = none := by
  intro fuel
  induction fuel with
  | zero => intro s _; rfl
  | succ n ih =>
    intro s hdev
    have hv : PIOS_MPU6500_Validate s.dev = 0 := by rw [hdev]; decide
    rw [configPollLoop, getReg_ok_eq envStuck _ s hv rfl]
    have hb : envStuck.byteResults (s.nByte + 1) % 256 = 128 := rfl
    rw [if_neg (by rw [int32Land_natCast _ _ (by omega), hb]; decide)]
    exact ih _ hdev

/-- C4 counterexample: on an oracle whose status reads always return `0x80`,
the reset-completion polling loop exits within no finite number of
iterations — refuting the claim that the loop is bounded. -/
theorem C4_poll_loop_counterexample :
    ¬ ∃ fuel,
      (configPollLoop envStuck PIOS_MPU60X0_PWR_MGMT_REG 0x80 fuel st0).isSome = true := by
  rintro ⟨fuel, hsome⟩
  rw [configPollLoop_stuck_none fuel st0 rfl] at hsome
  simp at hsome

/-- C4 (amended): the reset-completion polling loop terminates exactly when
some poll reads the status bits clear: if the k-th polled byte has the mask
bits clear, the loop exits within k+1 iterations; it has no iteration bound
of its own. -/
theorem C4_poll_loop_terminates_when_bit_clears :
    ∀ (e : Spi) (k : ℕ) (s : St),
      PIOS_MPU6500_Validate s.dev = 0 →
      (∀ n, e.claimResults n = 0) →
      e.byteResults (s.nByte + 2 * k + 1) % 256 &&& 0x80 = 0 →
      (configPollLoop e PIOS_MPU60X0_PWR_MGMT_REG 0x80 (k + 1) s).isSome = true := by
  intro e k
  induction k with
  | zero =>
    intro s hv hc hbit
    rw [configPollLoop, getReg_ok_eq e _ s hv (hc _)]
    rw [if_pos (by rw [int32Land_natCast _ _ (by omega)]; simpa using hbit)]
    rfl
  | succ k ih =>
    intro s hv hc hbit
    rw [configPollLoop, getReg_ok_eq e _ s hv (hc _)]
    by_cases hclear : e.byteResults (s.nByte + 1) % 256 &&& 0x80 = 0
    · rw [if_pos (by rw [int32Land_natCast _ _ (by omega)]; exact hclear)]
      rfl
    · rw [if_neg (by rw [int32Land_natCast _ _ (by omega)]; exact hclear)]
      refine ih _ hv hc ?_
      have hidx : s.nByte + 2 + 2 * k + 1 = s.nByte + 2 * (k + 1) + 1 := by ring
      rw [hidx]
      exact hbit

/-- C4 witness: the amended theorem instantiated on a run whose first poll
reads the reset bit clear. -/
theorem C4_poll_loop_witness :
    (PIOS_MPU6500_Validate st0.dev = 0 ∧ (∀ n, envOk.claimResults n = 0) ∧
      envOk.byteResults (st0.nByte + 2 * 0 + 1) % 256 &&& 0x80 = 0) ∧
    (configPollLoop envOk PIOS_MPU60X0_PWR_MGMT_REG 0x80 (0 + 1) st0).isSome = true :=
  ⟨⟨by decide, fun _ => rfl, by decide⟩,
   C4_poll_loop_terminates_when_bit_clears envOk 0 st0 (by decide) (fun _ => rfl) (by decide)⟩

/-- C6: for each of the four mounting orientations the interrupt handler
applies one and the same swap/sign rule (`remapXY`) to the accel raw X/Y pair
and to the gyro raw X/Y pair, and negates Z for both sensors. -/
theorem C6_remap_shared_rule :
    ∀ (o : Mpu60x0Orient) (buf : Fin 15 → ℕ),
      accelDecodeXY o buf = remapXY o (sext16 (buf 1) (buf 2)) (sext16 (buf 3) (buf 4)) ∧
      gyroDecodeXY o buf = remapXY o (sext16 (buf 9) (buf 10)) (sext16 (buf 11) (buf 12)) ∧
      accelDecodeZ buf = -sext16 (buf 5) (buf 6) ∧
      gyroDecodeZ buf = -sext16 (buf 13) (buf 14) := by
  intro o buf
  cases o <;> exact ⟨rfl, rfl, rfl, rfl⟩

/-- C7: the gyro scale function returns exactly 1/131, 1/65.5, 1/32.8 and
1/16.4 (deg/s per LSB) on the four gyro ranges, the accel scale function
returns exactly gravity over 16384, 8192, 4096 and 2048 on the four accel
ranges, and both return the sentinel 0 on any value outside the enums. -/
theorem C7_scale_constants :
    PIOS_MPU6500_GetGyroScale PIOS_MPU60X0_SCALE_250_DEG = 1 / 131 ∧
    PIOS_MPU6500_GetGyroScale PIOS_MPU60X0_SCALE_500_DEG = 1 / 65.5 ∧
    PIOS_MPU6500_GetGyroScale PIOS_MPU60X0_SCALE_1000_DEG = 1 / 32.8 ∧
    PIOS_MPU6500_GetGyroScale PIOS_MPU60X0_SCALE_2000_DEG = 1 / 16.4 ∧
    PIOS_MPU6500_GetAccelScale PIOS_MPU60X0_ACCEL_2G = GRAVITY / 16384 ∧
    PIOS_MPU6500_GetAccelScale PIOS_MPU60X0_ACCEL_4G = GRAVITY / 8192 ∧
    PIOS_MPU6500_GetAccelScale PIOS_MPU60X0_ACCEL_8G = GRAVITY / 4096 ∧
    PIOS_MPU6500_GetAccelScale PIOS_MPU60X0_ACCEL_16G = GRAVITY / 2048 ∧
    (∀ n, n ≠ PIOS_MPU60X0_SCALE_250_DEG → n ≠ PIOS_MPU60X0_SCALE_500_DEG →
      n ≠ PIOS_MPU60X0_SCALE_1000_DEG → n ≠ PIOS_MPU60X0_SCALE_2000_DEG →
      PIOS_MPU6500_GetGyroScale n = 0) ∧
    (∀ n, n ≠ PIOS_MPU60X0_ACCEL_2G → n ≠ PIOS_MPU60X0_ACCEL_4G →
      n ≠ PIOS_MPU60X0_ACCEL_8G → n ≠ PIOS_MPU60X0_ACCEL_16G →
      PIOS_MPU6500_GetAccelScale n = 0) := by
  refine ⟨rfl, rfl, rfl, rfl, rfl, rfl, rfl, rfl, ?_, ?_⟩
  · intro n h1 h2 h3 h4
    simp [PIOS_MPU6500_GetGyroScale, h1, h2, h3, h4]
  · intro n h1 h2 h3 h4
    simp [PIOS_MPU6500_GetAccelScale, h1, h2, h3, h4]

/-- C7 witness: the out-of-enum conjuncts instantiated at the value 5. -/
theorem C7_scale_constants_witness :
    ((5 : ℕ) ≠ PIOS_MPU60X0_SCALE_250_DEG ∧ (5 : ℕ) ≠ PIOS_MPU60X0_SCALE_500_DEG ∧
      (5 : ℕ) ≠ PIOS_MPU60X0_SCALE_1000_DEG ∧ (5 : ℕ) ≠ PIOS_MPU60X0_SCALE_2000_DEG) ∧
    PIOS_MPU6500_GetGyroScale 5 = 0 ∧ PIOS_MPU6500_GetAccelScale 5 = 0 :=
  ⟨⟨by decide, by decide, by decide, by decide⟩,
   C7_scale_constants.2.2.2.2.2.2.2.2.1 5 (by decide) (by decide) (by decide) (by decide),
   C7_scale_constants.2.2.2.2.2.2.2.2.2 5 (by decide) (by decide) (by decide) (by decide)⟩

/-- C8: whenever validation fails or the configured flag is false,
`PIOS_MPU6500_IRQHandler` returns `false` and leaves the state — including
the bus-event trace — untouched: zero claims, transfers and releases. -/
theorem C8_irq_noop_when_invalid_or_unconfigured (e : Spi) (s : St)
    (h : PIOS_MPU6500_Validate s.dev ≠ 0 ∨ devConfigured s = false) :
    PIOS_MPU6500_IRQHandler e s = (false, s) := by
  rw [PIOS_MPU6500_IRQHandler, if_pos h]

/-- C8 witness: the theorem instantiated on the NULL-handle state. -/
theorem C8_irq_noop_witness :
    (PIOS_MPU6500_Validate stNone.dev ≠ 0 ∨ devConfigured stNone = false) ∧
    PIOS_MPU6500_IRQHandler envOk stNone = (false, stNone) :=
  ⟨Or.inl (by decide),
   C8_irq_noop_when_invalid_or_unconfigured envOk stNone (Or.inl (by decide))⟩

theorem test_ok_result (e : Spi) (s : St)
    (hv : PIOS_MPU6500_Validate s.dev = 0) (hc : e.claimResults s.nClaim = 0) :
    (PIOS_MPU6500_Test e s).1 =
      if e.byteResults (s.nByte + 1) % 256 = MPU6500_WHOAMI_ID then 0 else -2 := by
  have h1 : ¬ ((↑(e.byteResults (s.nByte + 1) % 256) : ℤ) < 0) :=
    not_lt.mpr (Int.natCast_nonneg _)
  simp only [PIOS_MPU6500_Test, PIOS_MPU6500_ReadID,
    getReg_ok_eq e PIOS_MPU60X0_WHOAMI s hv hc, if_neg h1]
  rcases eq_or_ne (e.byteResults (s.nByte + 1) % 256) MPU6500_WHOAMI_ID with hid | hid
  · have h2 : ((e.byteResults (s.nByte + 1) % 256 : ℕ) : ℤ) = (MPU6500_WHOAMI_ID : ℤ) := by
      exact_mod_cast hid
    rw [if_neg (not_not_intro h2), if_pos hid]
  · have h2 : ((e.byteResults (s.nByte + 1) % 256 : ℕ) : ℤ) ≠ (MPU6500_WHOAMI_ID : ℤ) := by
      exact_mod_cast hid
    rw [if_pos h2, if_neg hid]

/-- C9 (on the intended reading of the source's `MPU6500_id` typo):
`PIOS_MPU6500_Test` returns `-1` exactly when the identity read fails (bus
claim failure), `0` exactly when the read succeeds with `0x70`, and `-2`
exactly when the read succeeds with any other byte. -/
theorem C9_test_return_codes_intended (e : Spi) (s : St)
    (hv : PIOS_MPU6500_Validate s.dev = 0) :
    (e.claimResults s.nClaim ≠ 0 → (PIOS_MPU6500_Test e s).1 = -1) ∧
    (e.claimResults s.nClaim = 0 →
      (e.byteResults (s.nByte + 1) % 256 = MPU6500_WHOAMI_ID →
        (PIOS_MPU6500_Test e s).1 = 0) ∧
      (e.byteResults (s.nByte + 1) % 256 ≠ MPU6500_WHOAMI_ID →
        (PIOS_MPU6500_Test e s).1 = -2)) := by
  constructor
  · intro hc
    simp [PIOS_MPU6500_Test, PIOS_MPU6500_ReadID, getReg_claimFail_eq e _ s hv hc]
  · intro hc
    constructor
    · intro hid
      rw [test_ok_result e s hv hc, if_pos hid]
    · intro hid
      rw [test_ok_result e s hv hc, if_neg hid]

/-- C9 witness: the bus-failure branch instantiated on the all-fail oracle. -/
theorem C9_test_return_codes_witness :
    (PIOS_MPU6500_Validate st0.dev = 0 ∧ envFail.claimResults st0.nClaim ≠ 0) ∧
    (PIOS_MPU6500_Test envFail st0).1 = -1 :=
  ⟨⟨by decide, by decide⟩,
   (C9_test_return_codes_intended envFail st0 (by decide)).1 (by decide)⟩

/-- C10: `PIOS_MPU6500_GetReg` fails only when the bus claim fails (returning
`-1`); once claimed it returns the received byte in `0..255` and never reports
a transfer error, while `PIOS_MPU6500_SetReg` returns the distinct errors `-2`
and `-3` on a non-zero echo of either transfer byte, and the self-test's `-1`
can therefore only arise from arbitration failure. -/
theorem C10_getReg_setReg_error_model (e : Spi) (s : St) (reg v : ℕ)
    (hv : PIOS_MPU6500_Validate s.dev = 0) :
    (e.claimResults s.nClaim ≠ 0 →
      (PIOS_MPU6500_GetReg e reg s).1 = -1 ∧
      (PIOS_MPU6500_SetReg e reg v s).1 = -1 ∧
      (PIOS_MPU6500_Test e s).1 = -1) ∧
    (e.claimResults s.nClaim = 0 →
      (PIOS_MPU6500_GetReg e reg s).1 = ((e.byteResults (s.nByte + 1) % 256 : ℕ) : ℤ) ∧
      0 ≤ (PIOS_MPU6500_GetReg e reg s).1 ∧
      (PIOS_MPU6500_GetReg e reg s).1 ≤ 255 ∧
      (PIOS_MPU6500_Test e s).1 ≠ -1 ∧
      (e.byteResults s.nByte % 256 ≠ 0 → (PIOS_MPU6500_SetReg e reg v s).1 = -2) ∧
      (e.byteResults s.nByte % 256 = 0 → e.byteResults (s.nByte + 1) % 256 ≠ 0 →
        (PIOS_MPU6500_SetReg e reg v s).1 = -3)) := by
  constructor
  · intro hc
    refine ⟨?_, ?_, ?_⟩
    · rw [getReg_claimFail_eq e reg s hv hc]
    · rw [setReg_claimFail_eq e reg v s hv hc]
    · simp [PIOS_MPU6500_Test, PIOS_MPU6500_ReadID, getReg_claimFail_eq e _ s hv hc]
  · intro hc
    have hg := getReg_ok_eq e reg s hv hc
    have hgw := getReg_ok_eq e PIOS_MPU60X0_WHOAMI s hv hc
    have h1 : ¬ ((↑(e.byteResults (s.nByte + 1) % 256) : ℤ) < 0) :=
      not_lt.mpr (Int.natCast_nonneg _)
    refine ⟨by rw [hg], by rw [hg]; exact Int.natCast_nonneg _, ?_, ?_, ?_, ?_⟩
    · rw [hg]
      show ((e.byteResults (s.nByte + 1) % 256 : ℕ) : ℤ) ≤ 255
      exact_mod_cast Nat.le_of_lt_succ (Nat.mod_lt _ (by omega))
    · rw [test_ok_result e s hv hc]
      split_ifs <;> decide
    · intro hb1
      simp [PIOS_MPU6500_SetReg, PIOS_MPU6500_ClaimBus, PIOS_MPU6500_ReleaseBus,
        PIOS_SPI_ClaimBus, PIOS_SPI_ReleaseBus, PIOS_SPI_TransferByte, hv, hc, hb1]
    · intro hb1 hb2
      simp [PIOS_MPU6500_SetReg, PIOS_MPU6500_ClaimBus, PIOS_MPU6500_ReleaseBus,
        PIOS_SPI_ClaimBus, PIOS_SPI_ReleaseBus, PIOS_SPI_TransferByte, hv, hc, hb1, hb2]

/-- C10 witness: the claim-failure branch instantiated on the all-fail
oracle. -/
theorem C10_getReg_setReg_witness :
    (PIOS_MPU6500_Validate st0.dev = 0 ∧ envFail.claimResults st0.nClaim ≠ 0) ∧
    (PIOS_MPU6500_GetReg envFail PIOS_MPU60X0_WHOAMI st0).1 = -1 :=
  ⟨⟨by decide, by decide⟩,
   ((C10_getReg_setReg_error_model envFail st0 PIOS_MPU60X0_WHOAMI 0 (by decide)).1
      (by decide)).1⟩
